import Mathlib

/-!
Verification development for the OpenGL3DScene repository
(src/Source/SceneManager.cpp and src/Source/ViewManager.cpp).

The registries, shader-uniform operations and input handlers are embedded
as pure Lean functions over explicit state.  GLfloat values that are only
assigned, compared, added and multiplied are modelled as rationals; the
transform engine, whose rotation matrices involve trigonometric functions,
is modelled over the reals.  Calls into the OpenGL / shader interfaces are
modelled as traces of the issued calls, applied to an explicit uniform
state where a claim speaks about the resulting shading state.
-/

namespace OpenGLScene

/-- 3-component float vector (glm::vec3) for registry data, over ℚ. -/
abbrev Vec3 := ℚ × ℚ × ℚ

/-- 4-component float vector (glm::vec4), over ℚ. -/
abbrev Vec4 := ℚ × ℚ × ℚ × ℚ

/-- Material descriptor.  The OBJECT_MATERIAL struct is declared in the
missing SceneManager.h header; its fields are determined by every use in
SceneManager.cpp (diffuseColor, specularColor, shininess, tag) and by the
MaterialDescriptor data model of the spec. -/
structure OBJECT_MATERIAL where
  diffuseColor : Vec3
  specularColor : Vec3
  shininess : ℚ
  tag : String
deriving DecidableEq

/-- Texture registry entry.  The TEXTURE_ID struct is declared in the
missing SceneManager.h header; its fields are determined by every use in
SceneManager.cpp (ID, tag).  The GLuint handle is modelled as Int because
the lookup functions return it through an int carrying the sentinel -1. -/
structure TEXTURE_ID where
  ID : Int
  tag : String
deriving DecidableEq

/-- Loop body of SceneManager::FindMaterial (SceneManager.cpp lines
221-236): linear scan; on the first entry whose tag compares equal, copy
diffuseColor, specularColor and shininess into the out-parameter and stop;
non-matching entries write nothing. -/
def findMaterialLoop (ms : List OBJECT_MATERIAL) (tag : String)
    (material : OBJECT_MATERIAL) : OBJECT_MATERIAL :=
  match ms with
  | [] => material
  | m :: rest =>
    if m.tag = tag then
      { material with
          diffuseColor := m.diffuseColor
          specularColor := m.specularColor
          shininess := m.shininess }
    else
      findMaterialLoop rest tag material

/-- SceneManager::FindMaterial (SceneManager.cpp lines 214-239).  Returns
the bool result together with the final value of the by-reference out
parameter.  Note the early return false only for an empty catalogue; the
final statement returns true unconditionally. -/
def FindMaterial (ms : List OBJECT_MATERIAL) (tag : String)
    (material : OBJECT_MATERIAL) : Bool × OBJECT_MATERIAL :=
  if ms.length = 0 then
    (false, material)
  else
    (true, findMaterialLoop ms tag material)

/-- SceneManager::FindTextureID (SceneManager.cpp lines 162-180): linear
scan in insertion order, first match wins, sentinel -1 on a miss. -/
def FindTextureID (entries : List TEXTURE_ID) (tag : String) : Int :=
  match entries with
  | [] => -1
  | e :: rest => if e.tag = tag then e.ID else FindTextureID rest tag

/-- Loop of SceneManager::FindTextureSlot with the running index made
explicit (SceneManager.cpp lines 194-203). -/
def findTextureSlotLoop (entries : List TEXTURE_ID) (tag : String)
    (index : Int) : Int :=
  match entries with
  | [] => -1
  | e :: rest =>
    if e.tag = tag then index else findTextureSlotLoop rest tag (index + 1)

/-- SceneManager::FindTextureSlot (SceneManager.cpp lines 188-206): linear
scan in insertion order returning the slot index of the first match,
sentinel -1 on a miss. -/
def FindTextureSlot (entries : List TEXTURE_ID) (tag : String) : Int :=
  findTextureSlotLoop entries tag 0

/-- SceneManager::DefineObjectMaterials (SceneManager.cpp lines 369-395):
the fixed material catalogue pushed in order plastic, wood, stone. -/
def DefineObjectMaterials : List OBJECT_MATERIAL :=
  [ { diffuseColor := (0.5, 0.5, 0.5), specularColor := (0.7, 0.7, 0.7),
      shininess := 5.0, tag := "plastic" },
    { diffuseColor := (0.6, 0.5, 0.2), specularColor := (0.5, 0.2, 0.5),
      shininess := 1.0, tag := "wood" },
    { diffuseColor := (0.5, 0.5, 0.5), specularColor := (0.73, 0.3, 0.3),
      shininess := 6.0, tag := "stone" } ]

/-- A single uniform write issued through the ShaderManager facade,
recorded with the C++ entry point used and the uniform name. -/
inductive UniformWrite where
  | intU (uniformName : String) (value : Int)
  | vec4U (uniformName : String) (value : Vec4)
  | vec3U (uniformName : String) (value : Vec3)
  | floatU (uniformName : String) (value : ℚ)
  | sampler2DU (uniformName : String) (value : Int)
deriving DecidableEq

/-- The shader uniform state the claims speak about: the use-texture flag
(an int uniform set from a C++ bool, so 0 or 1), the flat color, the
sampler value, and the three material uniforms. -/
structure ShaderState where
  bUseTexture : Int
  objectColor : Vec4
  objectTexture : Int
  materialDiffuseColor : Vec3
  materialSpecularColor : Vec3
  materialShininess : ℚ
deriving DecidableEq

/-- Effect of one uniform write on the modelled uniform state; writes to
uniforms outside the modelled record leave the state unchanged. -/
def applyWrite (s : ShaderState) (w : UniformWrite) : ShaderState :=
  match w with
  | UniformWrite.intU n v =>
      if n = "bUseTexture" then { s with bUseTexture := v } else s
  | UniformWrite.vec4U n v =>
      if n = "objectColor" then { s with objectColor := v } else s
  | UniformWrite.vec3U n v =>
      if n = "material.diffuseColor" then { s with materialDiffuseColor := v }
      else if n = "material.specularColor" then { s with materialSpecularColor := v }
      else s
  | UniformWrite.floatU n v =>
      if n = "material.shininess" then { s with materialShininess := v } else s
  | UniformWrite.sampler2DU n v =>
      if n = "objectTexture" then { s with objectTexture := v } else s

/-- Apply a trace of uniform writes in order (last write wins). -/
def applyWrites (s : ShaderState) (ws : List UniformWrite) : ShaderState :=
  List.foldl applyWrite s ws

/-- SceneManager::SetShaderColor (SceneManager.cpp lines 285-304) as the
trace of uniform writes it issues; hasShader models the NULL check on
m_pShaderManager.  The use-texture flag is set to false (int 0) before the
color value is written. -/
def SetShaderColor (redColorValue greenColorValue blueColorValue alphaValue : ℚ)
    (hasShader : Bool) : List UniformWrite :=
  if hasShader then
    [UniformWrite.intU "bUseTexture" 0,
     UniformWrite.vec4U "objectColor"
       (redColorValue, greenColorValue, blueColorValue, alphaValue)]
  else
    []

/-- SceneManager::SetShaderTexture (SceneManager.cpp lines 312-323) as the
trace of uniform writes it issues: the use-texture flag is set to true
(int 1) unconditionally, then the sampler uniform is set to the result of
FindTextureSlot, which is -1 when the tag is not registered. -/
def SetShaderTexture (entries : List TEXTURE_ID) (textureTag : String)
    (hasShader : Bool) : List UniformWrite :=
  if hasShader then
    [UniformWrite.intU "bUseTexture" 1,
     UniformWrite.sampler2DU "objectTexture" (FindTextureSlot entries textureTag)]
  else
    []

/-- SceneManager::SetShaderMaterial (SceneManager.cpp lines 345-361) as the
trace of uniform writes it issues.  localMaterial models the indeterminate
contents of the default-constructed local OBJECT_MATERIAL variable that is
passed by reference to FindMaterial.  The source performs no NULL check on
m_pShaderManager in this method. -/
def SetShaderMaterial (ms : List OBJECT_MATERIAL) (materialTag : String)
    (localMaterial : OBJECT_MATERIAL) : List UniformWrite :=
  if ms.length > 0 then
    let found := FindMaterial ms materialTag localMaterial
    if found.1 = true then
      [UniformWrite.vec3U "material.diffuseColor" found.2.diffuseColor,
       UniformWrite.vec3U "material.specularColor" found.2.specularColor,
       UniformWrite.floatU "material.shininess" found.2.shininess]
    else
      []
  else
    []

/-- An OpenGL texture-object call issued by the registry. -/
inductive GLCall where
  | glGenTextures (count : Nat) : GLCall
  | glDeleteTextures (count : Nat) : GLCall
deriving DecidableEq

/-- Recognizer for texture-deletion calls. -/
def isDeleteCall : GLCall → Bool
  | GLCall.glDeleteTextures _ => true
  | _ => false

/-- SceneManager::DestroyGLTextures (SceneManager.cpp lines 148-154) as the
trace of OpenGL calls it issues: for each of the loadedTextures live
entries the loop body is glGenTextures(1, &entry.ID) - an allocation that
also overwrites the stored handle - and no deletion call ever appears. -/
def DestroyGLTextures (loadedTextures : Nat) : List GLCall :=
  (List.range loadedTextures).map (fun _ => GLCall.glGenTextures 1)

/-- Texture registry state.  Modelled from the spec: the m_textureIDs
array is declared in the missing SceneManager.h header; per the spec data
model and the source comments (up to 16 slots / 16 textures per scene) it
has exactly 16 elements. -/
structure SceneState where
  m_textureIDs : Fin 16 → TEXTURE_ID
  m_loadedTextures : Nat

/-- The registration step of SceneManager::CreateGLTexture
(SceneManager.cpp lines 112-115) executed after a successful image load:
the source stores the new entry at index m_loadedTextures and increments
the counter, with no bound check whatsoever.  Modelled from the spec: the
array has 16 slots, so the write is in bounds only for index below 16;
an out-of-bounds write is undefined behavior, modelled as none. -/
def registerTexture (s : SceneState) (textureID : Int) (tag : String) :
    Option SceneState :=
  if h : s.m_loadedTextures < 16 then
    some { m_textureIDs :=
             Function.update s.m_textureIDs ⟨s.m_loadedTextures, h⟩
               { ID := textureID, tag := tag },
           m_loadedTextures := s.m_loadedTextures + 1 }
  else
    none

/-- 3-component real vector for the transform engine. -/
abbrev Vec3R := ℝ × ℝ × ℝ

/-- 4x4 real matrix (glm::mat4 under its standard column-vector matrix
semantics). -/
abbrev Mat4 := Matrix (Fin 4) (Fin 4) ℝ

/-- glm::radians: degrees to radians. -/
noncomputable def glmRadians (degrees : ℝ) : ℝ := degrees * (Real.pi / 180)

/-- glm::scale(v): diagonal scaling matrix. -/
noncomputable def glmScale (v : Vec3R) : Mat4 :=
  !![v.1, 0, 0, 0;
     0, v.2.1, 0, 0;
     0, 0, v.2.2, 0;
     0, 0, 0, 1]

/-- glm::rotate(angle, v): rotation about the normalized axis v by angle
radians, per the Rodrigues construction used in glm
(matrix_transform.inl), written as the mathematical matrix the column-major
storage represents. -/
noncomputable def glmRotate (angle : ℝ) (v : Vec3R) : Mat4 :=
  let c := Real.cos angle
  let s := Real.sin angle
  let n := Real.sqrt (v.1 * v.1 + v.2.1 * v.2.1 + v.2.2 * v.2.2)
  let ax := v.1 / n
  let ay := v.2.1 / n
  let az := v.2.2 / n
  !![c + (1 - c) * ax * ax, (1 - c) * ay * ax - s * az, (1 - c) * az * ax + s * ay, 0;
     (1 - c) * ax * ay + s * az, c + (1 - c) * ay * ay, (1 - c) * az * ay - s * ax, 0;
     (1 - c) * ax * az - s * ay, (1 - c) * ay * az + s * ax, c + (1 - c) * az * az, 0;
     0, 0, 0, 1]

/-- glm::translate(v): identity with translation column v. -/
noncomputable def glmTranslate (v : Vec3R) : Mat4 :=
  !![1, 0, 0, v.1;
     0, 1, 0, v.2.1;
     0, 0, 1, v.2.2;
     0, 0, 0, 1]

/-- SceneManager::SetTransformations (SceneManager.cpp lines 247-277):
builds scale, per-axis rotation and translation matrices, composes
modelView = translation * rotationZ * rotationY * rotationX * scale, and
pushes it as the model matrix when the shader manager is non-null (none
models the null case, where nothing is pushed). -/
noncomputable def SetTransformations (scaleXYZ : Vec3R)
    (XrotationDegrees YrotationDegrees ZrotationDegrees : ℝ)
    (positionXYZ : Vec3R) (hasShader : Bool) : Option Mat4 :=
  let scale := glmScale scaleXYZ
  let rotationX := glmRotate (glmRadians XrotationDegrees) (1, 0, 0)
  let rotationY := glmRotate (glmRadians YrotationDegrees) (0, 1, 0)
  let rotationZ := glmRotate (glmRadians ZrotationDegrees) (0, 0, 1)
  let translation := glmTranslate positionXYZ
  let modelView := translation * rotationZ * rotationY * rotationX * scale
  if hasShader then some modelView else none

/-- Modelled from the spec: the Camera class (its header is not among the
repository sources; only ViewManager.cpp calls into it).  Per the spec,
ProcessMouseMovement scales both offsets by mouseSensitivity, adds them to
yaw and pitch, and clamps pitch at the 89-degree bounds to avoid gimbal
flip; the clamp is the standard one, snapping any excess to the bound.
The recomputation of the front/right/up basis from yaw and pitch does not
affect the angle state and is not modelled. -/
structure Camera where
  yaw : ℚ
  pitch : ℚ
  mouseSensitivity : ℚ
deriving DecidableEq

/-- Modelled from the spec: Camera::ProcessMouseMovement (see the Camera
structure comment). -/
def ProcessMouseMovement (cam : Camera) (xoffset yoffset : ℚ) : Camera :=
  let newYaw := cam.yaw + xoffset * cam.mouseSensitivity
  let rawPitch := cam.pitch + yoffset * cam.mouseSensitivity
  let newPitch :=
    if rawPitch > 89 then 89
    else if rawPitch < -89 then -89
    else rawPitch
  { cam with yaw := newYaw, pitch := newPitch }

/-- The mouse-handling state of ViewManager: the static gLastX, gLastY and
gFirstMouse variables (ViewManager.cpp lines 18-20) plus the camera the
callback forwards offsets to. -/
structure ViewState where
  gLastX : ℚ
  gLastY : ℚ
  gFirstMouse : Bool
  camera : Camera
deriving DecidableEq

/-- ViewManager::Mouse_Position_Callback (ViewManager.cpp lines 131-156):
on the first event record the position and clear the flag, then - falling
through in the same call - compute xOffset = x - gLastX and
yOffset = gLastY - y, update gLastX and gLastY, and forward the offsets to
Camera::ProcessMouseMovement. -/
def Mouse_Position_Callback (s : ViewState) (xMousePos yMousePos : ℚ) :
    ViewState :=
  let s1 :=
    if s.gFirstMouse then
      { s with gLastX := xMousePos, gLastY := yMousePos, gFirstMouse := false }
    else
      s
  let xOffset := xMousePos - s1.gLastX
  let yOffset := s1.gLastY - yMousePos
  let s2 := { s1 with gLastX := xMousePos, gLastY := yMousePos }
  { s2 with camera := ProcessMouseMovement s2.camera xOffset yOffset }

/-- A sequence of mouse-move events delivered to the callback in order. -/
def processMouseEvents (s : ViewState) (events : List (ℚ × ℚ)) : ViewState :=
  List.foldl (fun st e => Mouse_Position_Callback st e.1 e.2) s events

/-- The projection-mode portion of ViewManager::ProcessKeyboardEvents
(ViewManager.cpp lines 200-209): if the P key is pressed the flag
bOrthographicProjection is set to false (Perspective), then if the O key
is pressed it is set to true (Orthographic); the P check runs first, so a
simultaneous press ends Orthographic.  false means Perspective. -/
def processProjectionKeys (pPressed oPressed : Bool)
    (bOrthographicProjection : Bool) : Bool :=
  let afterP := if pPressed then false else bOrthographicProjection
  if oPressed then true else afterP

/-- A material value with all fields zeroed, used as a stand-in for the
caller-held out-parameter contents in concrete evaluations. -/
def zeroMaterial : OBJECT_MATERIAL :=
  { diffuseColor := (0, 0, 0), specularColor := (0, 0, 0),
    shininess := 0, tag := "" }

/-- Two entries registered under the same tag, to exercise the
duplicate-tag resolution of the texture lookups. -/
def dupTextureEntries : List TEXTURE_ID :=
  [{ ID := 5, tag := "wood" }, { ID := 7, tag := "wood" }]

/-- A shader state as left by a previous object: texturing off, a flat
color, sampler 3, and the wood material values previously pushed. -/
def baseShaderState : ShaderState :=
  { bUseTexture := 0, objectColor := (1, 1, 1, 1), objectTexture := 3,
    materialDiffuseColor := (0.6, 0.5, 0.2),
    materialSpecularColor := (0.5, 0.2, 0.5),
    materialShininess := 1 }

/-- A registry state with all 16 slots occupied. -/
def fullRegistry : SceneState :=
  { m_textureIDs := fun _ => { ID := 1, tag := "filled" },
    m_loadedTextures := 16 }

/-- A view state past the first mouse event, camera at rest with the
LearnOpenGL default sensitivity of one tenth. -/
def clampCamState : ViewState :=
  { gLastX := 0, gLastY := 0, gFirstMouse := false,
    camera := { yaw := -90, pitch := 0, mouseSensitivity := 1 / 10 } }

/-- A view state still waiting for its first mouse event. -/
def firstMouseViewState : ViewState :=
  { gLastX := 0, gLastY := 0, gFirstMouse := true,
    camera := { yaw := -90, pitch := 10, mouseSensitivity := 1 / 10 } }

/-- A view state past the first mouse event with a nonzero reference
point. -/
def secondMouseViewState : ViewState :=
  { gLastX := 100, gLastY := 200, gFirstMouse := false,
    camera := { yaw := -90, pitch := 10, mouseSensitivity := 1 / 10 } }

theorem findMaterialLoop_of_find_some (ms : List OBJECT_MATERIAL) (tag : String)
    (material m : OBJECT_MATERIAL)
    (h : List.find? (fun e => e.tag == tag) ms = some m) :
    findMaterialLoop ms tag material =
      { material with
          diffuseColor := m.diffuseColor
          specularColor := m.specularColor
          shininess := m.shininess } := by
  induction ms with
  | nil => simp [List.find?] at h
  | cons hd tl ih =>
    by_cases hh : hd.tag = tag
    · rw [List.find?_cons_of_pos _ (by simpa using hh)] at h
      cases h
      simp [findMaterialLoop, hh]
    · rw [List.find?_cons_of_neg _ (by simpa using hh)] at h
      simp [findMaterialLoop, hh, ih h]

theorem findMaterialLoop_of_find_none (ms : List OBJECT_MATERIAL) (tag : String)
    (material : OBJECT_MATERIAL)
    (h : List.find? (fun e => e.tag == tag) ms = none) :
    findMaterialLoop ms tag material = material := by
  induction ms with
  | nil => rfl
  | cons hd tl ih =>
    by_cases hh : hd.tag = tag
    · rw [List.find?_cons_of_pos _ (by simpa using hh)] at h
      cases h
    · rw [List.find?_cons_of_neg _ (by simpa using hh)] at h
      simp [findMaterialLoop, hh, ih h]

/-- C1: FindMaterial returns false exactly on an empty catalogue and true
on any non-empty catalogue regardless of a tag match; the out-descriptor
has its diffuseColor, specularColor and shininess fields overwritten with
the values of the first matching entry of the linear scan when a match
exists,
and is returned exactly as the caller supplied it when no entry
matches. -/
theorem C1_findMaterial_contract (ms : List OBJECT_MATERIAL) (tag : String)
    (material : OBJECT_MATERIAL) :
    (ms = [] → FindMaterial ms tag material = (false, material)) ∧
    (ms ≠ [] → (FindMaterial ms tag material).1 = true) ∧
    (∀ m, List.find? (fun e => e.tag == tag) ms = some m →
      (FindMaterial ms tag material).2 =
        { material with
            diffuseColor := m.diffuseColor
            specularColor := m.specularColor
            shininess := m.shininess }) ∧
    (List.find? (fun e => e.tag == tag) ms = none →
      (FindMaterial ms tag material).2 = material) := by
  refine ⟨?_, ?_, ?_, ?_⟩
  · intro h; subst h; rfl
  · intro h
    simp [FindMaterial, List.length_eq_zero, h]
  · intro m hm
    have hne : ms ≠ [] := by
      intro h; subst h; simp [List.find?] at hm
    simp only [FindMaterial, List.length_eq_zero, if_neg hne]
    exact findMaterialLoop_of_find_some ms tag material m hm
  · intro hm
    by_cases hne : ms = []
    · subst hne; rfl
    · simp only [FindMaterial, List.length_eq_zero, if_neg hne]
      exact findMaterialLoop_of_find_none ms tag material hm

/-- C1 witness: concrete evaluations against the source catalogue - empty
catalogue gives false with the out value untouched; an absent tag on the
populated catalogue gives true with the out value untouched; the tag wood
gives true with the wood fields copied. -/
theorem C1_findMaterial_witness :
    FindMaterial [] "wood" zeroMaterial = (false, zeroMaterial) ∧
    (FindMaterial DefineObjectMaterials "metal" zeroMaterial).1 = true ∧
    (FindMaterial DefineObjectMaterials "metal" zeroMaterial).2 = zeroMaterial ∧
    (FindMaterial DefineObjectMaterials "wood" zeroMaterial).2 =
      { zeroMaterial with
          diffuseColor := (0.6, 0.5, 0.2)
          specularColor := (0.5, 0.2, 0.5)
          shininess := 1.0 } := by
  have h1 := C1_findMaterial_contract [] "wood" zeroMaterial
  have h2 := C1_findMaterial_contract DefineObjectMaterials "metal" zeroMaterial
  have h3 := C1_findMaterial_contract DefineObjectMaterials "wood" zeroMaterial
  refine ⟨h1.1 rfl, h2.2.1 (by decide), h2.2.2.2 (by decide), ?_⟩
  have hw := h3.2.2.1
    { diffuseColor := (0.6, 0.5, 0.2), specularColor := (0.5, 0.2, 0.5),
      shininess := 1.0, tag := "wood" } (by rfl)
  simpa using hw

/-- C4: the teardown loop of DestroyGLTextures issues one glGenTextures
allocation per live entry and no deletion call at all - evaluated at the
state the program actually reaches, two loaded textures. -/
theorem C4_destroy_releases_nothing :
    DestroyGLTextures 2 = [GLCall.glGenTextures 1, GLCall.glGenTextures 1] ∧
    List.countP isDeleteCall (DestroyGLTextures 2) = 0 := by
  decide

/-- C6: with all 16 slots occupied the registration step of a 17th
successful load writes at index 16 of the 16-element array - an
out-of-bounds write, modelled as none: the load is neither rejected by the
code (which performs the write and returns true) nor does it leave the
first 16 entries well-defined. -/
theorem C6_seventeenth_load_overflows :
    fullRegistry.m_loadedTextures = 16 ∧
    registerTexture fullRegistry 7 "extra" = none :=
  ⟨rfl, rfl⟩

/-- C9: on each keyboard poll the P key forces Perspective (flag false)
and the O key forces Orthographic (flag true), nothing changes when
neither is pressed, a simultaneous press ends Orthographic because the P
check runs first, and polling P then O then P yields Perspective,
Orthographic, Perspective from any starting mode. -/
theorem C9_projection_keys :
    (∀ b, processProjectionKeys true false b = false) ∧
    (∀ b, processProjectionKeys false true b = true) ∧
    (∀ b, processProjectionKeys false false b = b) ∧
    (∀ b, processProjectionKeys true true b = true) ∧
    (∀ b0,
      processProjectionKeys true false b0 = false ∧
      processProjectionKeys false true (processProjectionKeys true false b0) = true ∧
      processProjectionKeys true false
        (processProjectionKeys false true (processProjectionKeys true false b0)) = false) := by
  decide

/-- C10: with a non-null shader manager, SetShaderColor first writes the
use-texture flag as false (int 0) and then the color value, so after the
call texturing is disabled and the color is the passed one whatever the
previous uniform state was; with a null shader manager nothing is
written. -/
theorem C10_color_disables_texture (r g b a : ℚ) (s : ShaderState) :
    SetShaderColor r g b a true =
      [UniformWrite.intU "bUseTexture" 0,
       UniformWrite.vec4U "objectColor" (r, g, b, a)] ∧
    (applyWrites s (SetShaderColor r g b a true)).bUseTexture = 0 ∧
    (applyWrites s (SetShaderColor r g b a true)).objectColor = (r, g, b, a) ∧
    SetShaderColor r g b a false = [] := by
  refine ⟨rfl, ?_, ?_, rfl⟩ <;>
    simp [SetShaderColor, applyWrites, applyWrite]

theorem findTextureID_of_all_miss (entries : List TEXTURE_ID) (tag : String)
    (h : ∀ e ∈ entries, e.tag ≠ tag) : FindTextureID entries tag = -1 := by
  induction entries with
  | nil => rfl
  | cons hd tl ih =>
    simp only [FindTextureID, if_neg (h hd (List.mem_cons_self hd tl))]
    exact ih (fun e he => h e (List.mem_cons_of_mem hd he))

theorem findTextureSlotLoop_of_all_miss (entries : List TEXTURE_ID) (tag : String)
    (h : ∀ e ∈ entries, e.tag ≠ tag) :
    ∀ k : Int, findTextureSlotLoop entries tag k = -1 := by
  induction entries with
  | nil => intro k; rfl
  | cons hd tl ih =>
    intro k
    simp only [findTextureSlotLoop, if_neg (h hd (List.mem_cons_self hd tl))]
    exact ih (fun e he => h e (List.mem_cons_of_mem hd he)) (k + 1)

theorem findTextureID_first_match (pre : List TEXTURE_ID) (m : TEXTURE_ID)
    (post : List TEXTURE_ID) (tag : String)
    (hpre : ∀ e ∈ pre, e.tag ≠ tag) (hm : m.tag = tag) :
    FindTextureID (pre ++ m :: post) tag = m.ID := by
  induction pre with
  | nil => simp [FindTextureID, hm]
  | cons hd tl ih =>
    simp only [List.cons_append, FindTextureID,
      if_neg (hpre hd (List.mem_cons_self hd tl))]
    exact ih (fun e he => hpre e (List.mem_cons_of_mem hd he))

theorem findTextureSlotLoop_first_match (m : TEXTURE_ID)
    (post : List TEXTURE_ID) (tag : String) (hm : m.tag = tag) :
    ∀ (pre : List TEXTURE_ID), (∀ e ∈ pre, e.tag ≠ tag) → ∀ k : Int,
      findTextureSlotLoop (pre ++ m :: post) tag k = k + pre.length := by
  intro pre
  induction pre with
  | nil =>
    intro _ k
    simp [findTextureSlotLoop, hm]
  | cons hd tl ih =>
    intro hpre k
    simp only [List.cons_append, findTextureSlotLoop, List.append_eq,
      if_neg (hpre hd (List.mem_cons_self hd tl))]
    rw [ih (fun e he => hpre e (List.mem_cons_of_mem hd he)) (k + 1)]
    simp only [List.length_cons]
    push_cast
    ring

/-- C5: FindTextureID and FindTextureSlot scan the loaded entries in
insertion order; they return the ID, respectively the slot index, of the
first entry whose tag compares equal (so with duplicate tags the
first-registered entry deterministically wins) and return the sentinel -1
when no loaded entry carries the tag. -/
theorem C5_texture_lookup_contract (entries : List TEXTURE_ID) (tag : String) :
    ((∀ e ∈ entries, e.tag ≠ tag) →
      FindTextureID entries tag = -1 ∧ FindTextureSlot entries tag = -1) ∧
    (∀ pre m post, entries = pre ++ m :: post →
      (∀ e ∈ pre, e.tag ≠ tag) → m.tag = tag →
      FindTextureID entries tag = m.ID ∧
      FindTextureSlot entries tag = (pre.length : ℤ)) := by
  constructor
  · intro h
    exact ⟨findTextureID_of_all_miss entries tag h,
      findTextureSlotLoop_of_all_miss entries tag h 0⟩
  · intro pre m post he hpre hm
    subst he
    refine ⟨findTextureID_first_match pre m post tag hpre hm, ?_⟩
    have hs := findTextureSlotLoop_first_match m post tag hm pre hpre 0
    unfold FindTextureSlot
    rw [hs]
    ring

/-- C5 witness: with two entries registered under the tag wood, both
lookups return the first entry (ID 5, slot 0); an unknown tag yields the
sentinel -1 from both. -/
theorem C5_texture_lookup_witness :
    FindTextureID dupTextureEntries "wood" = 5 ∧
    FindTextureSlot dupTextureEntries "wood" = 0 ∧
    FindTextureID dupTextureEntries "marble" = -1 ∧
    FindTextureSlot dupTextureEntries "marble" = -1 := by
  have h1 := (C5_texture_lookup_contract dupTextureEntries "wood").2 []
    { ID := 5, tag := "wood" } [{ ID := 7, tag := "wood" }] rfl (by simp) rfl
  have h2 := (C5_texture_lookup_contract dupTextureEntries "marble").1 (by decide)
  exact ⟨h1.1, by simpa using h1.2, h2.1, h2.2⟩

/-- C3 counterexample: the claim fails on the code.  With the texture
registry holding entries and the shader state as a previous object left it
(texturing off), SetShaderTexture on an unknown tag flips the use-texture
flag to 1, and SetShaderMaterial on an unknown tag against the non-empty
source catalogue overwrites the material shininess uniform with the
contents of its default-constructed local, because FindMaterial reports
true for any non-empty catalogue. -/
theorem C3_counterexample :
    (applyWrites baseShaderState
        (SetShaderTexture dupTextureEntries "nonexistent" true)).bUseTexture ≠
      baseShaderState.bUseTexture ∧
    (applyWrites baseShaderState
        (SetShaderMaterial DefineObjectMaterials "nonexistent"
          zeroMaterial)).materialShininess ≠
      baseShaderState.materialShininess := by
  decide

/-- C3 amended: for a tag absent from the registries the calls are not
silent no-ops.  SetShaderTexture always sets the use-texture flag to 1 and
writes the FindTextureSlot result (the sentinel -1 on a miss) into the
sampler uniform; SetShaderMaterial on a non-empty catalogue with no
matching tag overwrites the three material uniforms with the contents of
its default-constructed local descriptor.  Only the shading state not
written by these traces keeps its previous value. -/
theorem C3_amended_fallback (entries : List TEXTURE_ID)
    (ms : List OBJECT_MATERIAL) (tag : String) (s : ShaderState)
    (localMaterial : OBJECT_MATERIAL) :
    applyWrites s (SetShaderTexture entries tag true) =
      { s with bUseTexture := 1, objectTexture := FindTextureSlot entries tag } ∧
    (ms ≠ [] → List.find? (fun e => e.tag == tag) ms = none →
      applyWrites s (SetShaderMaterial ms tag localMaterial) =
        { s with
            materialDiffuseColor := localMaterial.diffuseColor
            materialSpecularColor := localMaterial.specularColor
            materialShininess := localMaterial.shininess }) := by
  constructor
  · simp [applyWrites, applyWrite, SetShaderTexture]
  · intro hne hfind
    have hlen : ms.length > 0 := List.length_pos.mpr hne
    have hloop := findMaterialLoop_of_find_none ms tag localMaterial hfind
    simp [SetShaderMaterial, FindMaterial, List.length_eq_zero, hne, hlen,
      hloop, applyWrites, applyWrite]

/-- C3 amended witness: concrete evaluation of the material half against
the source catalogue with an absent tag; the three material uniforms take
the zeroed local contents. -/
theorem C3_amended_witness :
    applyWrites baseShaderState
        (SetShaderMaterial DefineObjectMaterials "nonexistent" zeroMaterial) =
      { baseShaderState with
          materialDiffuseColor := zeroMaterial.diffuseColor
          materialSpecularColor := zeroMaterial.specularColor
          materialShininess := zeroMaterial.shininess } :=
  (C3_amended_fallback dupTextureEntries DefineObjectMaterials "nonexistent"
      baseShaderState zeroMaterial).2 (by decide) (by decide)

theorem glmRadians_zero : glmRadians 0 = 0 := by
  simp [glmRadians]

theorem glmRotate_zero (v : Vec3R) : glmRotate 0 v = 1 := by
  unfold glmRotate
  ext i j
  fin_cases i <;> fin_cases j <;>
    simp [Matrix.one_apply, Matrix.cons_val_zero, Matrix.cons_val_one,
      Matrix.head_cons, Matrix.cons_val_two, Matrix.cons_val_three,
      Matrix.vecHead, Matrix.vecTail]

theorem glmScale_one : glmScale (1, 1, 1) = 1 := by
  unfold glmScale
  ext i j
  fin_cases i <;> fin_cases j <;>
    simp [Matrix.one_apply, Matrix.cons_val_zero, Matrix.cons_val_one,
      Matrix.head_cons, Matrix.cons_val_two, Matrix.cons_val_three,
      Matrix.vecHead, Matrix.vecTail]

theorem glmTranslate_zero : glmTranslate (0, 0, 0) = 1 := by
  unfold glmTranslate
  ext i j
  fin_cases i <;> fin_cases j <;>
    simp [Matrix.one_apply, Matrix.cons_val_zero, Matrix.cons_val_one,
      Matrix.head_cons, Matrix.cons_val_two, Matrix.cons_val_three,
      Matrix.vecHead, Matrix.vecTail]

/-- C2: with a non-null shader manager, SetTransformations pushes exactly
the matrix translation * rotationZ * rotationY * rotationX * scale built
from the degree inputs (a deterministic function of its arguments); the
default inputs - unit scale, zero rotations, zero translation - yield the
identity matrix, and with zero rotations the pushed matrix carries the
scale on the diagonal with the translation column unscaled, witnessing
scale-first translation-last composition. -/
theorem C2_transform_contract :
    (∀ (s : Vec3R) (xr yr zr : ℝ) (p : Vec3R),
      SetTransformations s xr yr zr p true =
        some (glmTranslate p * glmRotate (glmRadians zr) (0, 0, 1) *
              glmRotate (glmRadians yr) (0, 1, 0) *
              glmRotate (glmRadians xr) (1, 0, 0) * glmScale s)) ∧
    SetTransformations (1, 1, 1) 0 0 0 (0, 0, 0) true = some (1 : Mat4) ∧
    (∀ (s p : Vec3R),
      SetTransformations s 0 0 0 p true =
        some !![s.1, 0, 0, p.1;
                0, s.2.1, 0, p.2.1;
                0, 0, s.2.2, p.2.2;
                0, 0, 0, 1]) := by
  refine ⟨fun s xr yr zr p => rfl, ?_, ?_⟩
  · simp only [SetTransformations, glmRadians_zero, glmRotate_zero, mul_one,
      if_true]
    rw [show ((0, 0, 0) : Vec3R) = ((0 : ℝ), (0 : ℝ), (0 : ℝ)) from rfl,
      show ((1, 1, 1) : Vec3R) = ((1 : ℝ), (1 : ℝ), (1 : ℝ)) from rfl,
      glmTranslate_zero, glmScale_one, mul_one]
  · intro s p
    simp only [SetTransformations, glmRadians_zero, glmRotate_zero, mul_one,
      if_true]
    congr 1
    ext i j
    fin_cases i <;> fin_cases j <;>
      simp [glmTranslate, glmScale, Matrix.mul_apply, Fin.sum_univ_four,
        Matrix.cons_val_zero, Matrix.cons_val_one, Matrix.head_cons,
        Matrix.cons_val_two, Matrix.cons_val_three, Matrix.vecHead,
        Matrix.vecTail]

theorem pitch_bounds_pmm (cam : Camera) (xo yo : ℚ) :
    -89 ≤ (ProcessMouseMovement cam xo yo).pitch ∧
    (ProcessMouseMovement cam xo yo).pitch ≤ 89 := by
  have h : (ProcessMouseMovement cam xo yo).pitch =
      (if cam.pitch + yo * cam.mouseSensitivity > 89 then (89 : ℚ)
       else if cam.pitch + yo * cam.mouseSensitivity < -89 then -89
       else cam.pitch + yo * cam.mouseSensitivity) := rfl
  rw [h]
  split_ifs with h1 h2
  · exact ⟨by norm_num, by norm_num⟩
  · exact ⟨by norm_num, by norm_num⟩
  · push_neg at h1 h2
    exact ⟨h2, h1⟩

theorem pitch_bounds_callback (s : ViewState) (x y : ℚ) :
    -89 ≤ (Mouse_Position_Callback s x y).camera.pitch ∧
    (Mouse_Position_Callback s x y).camera.pitch ≤ 89 :=
  pitch_bounds_pmm _ _ _

theorem pitch_bounds_fold (events : List (ℚ × ℚ)) :
    ∀ s : ViewState, -89 ≤ s.camera.pitch → s.camera.pitch ≤ 89 →
      -89 ≤ (processMouseEvents s events).camera.pitch ∧
      (processMouseEvents s events).camera.pitch ≤ 89 := by
  induction events with
  | nil => intro s h1 h2; exact ⟨h1, h2⟩
  | cons e rest ih =>
    intro s h1 h2
    have hb := pitch_bounds_callback s e.1 e.2
    exact ih (Mouse_Position_Callback s e.1 e.2) hb.1 hb.2

/-- C7 counterexample: one mouse-move event of large magnitude drives the
pitch to exactly 89 degrees, so the pitch does not remain strictly inside
the open interval between -89 and 89 after every event. -/
theorem C7_counterexample :
    (Mouse_Position_Callback clampCamState 0 (-1000)).camera.pitch = 89 ∧
    ¬ ((Mouse_Position_Callback clampCamState 0 (-1000)).camera.pitch < 89) := by
  have hpitch : (Mouse_Position_Callback clampCamState 0 (-1000)).camera.pitch =
      (if (0 : ℚ) + ((0 : ℚ) - (-1000)) * (1 / 10) > 89 then (89 : ℚ)
       else if (0 : ℚ) + ((0 : ℚ) - (-1000)) * (1 / 10) < -89 then -89
       else (0 : ℚ) + ((0 : ℚ) - (-1000)) * (1 / 10)) := rfl
  rw [hpitch, if_pos (by norm_num)]
  norm_num

/-- C7 amended: after every nonempty sequence of mouse-move events the
pitch lies in the closed interval from -89 to 89 degrees, whatever the
starting state and whatever the magnitude or repetition of the events; the
boundary values are attained exactly when the clamp engages, which is the
only departure from the open-interval phrasing of the claim. -/
theorem C7_pitch_closed_bounds (s : ViewState) (events : List (ℚ × ℚ))
    (hne : events ≠ []) :
    -89 ≤ (processMouseEvents s events).camera.pitch ∧
    (processMouseEvents s events).camera.pitch ≤ 89 := by
  cases events with
  | nil => exact absurd rfl hne
  | cons e rest =>
    have hb := pitch_bounds_callback s e.1 e.2
    exact pitch_bounds_fold rest (Mouse_Position_Callback s e.1 e.2) hb.1 hb.2

/-- C7 amended witness: a clamping event followed by an ordinary event
keeps the pitch inside the closed bounds. -/
theorem C7_pitch_closed_bounds_witness :
    -89 ≤ (processMouseEvents clampCamState [(0, -1000), (3, 7)]).camera.pitch ∧
    (processMouseEvents clampCamState [(0, -1000), (3, 7)]).camera.pitch ≤ 89 :=
  C7_pitch_closed_bounds clampCamState [(0, -1000), (3, 7)] (by decide)

theorem pmm_zero_offsets (cam : Camera) (h1 : -89 ≤ cam.pitch)
    (h2 : cam.pitch ≤ 89) : ProcessMouseMovement cam 0 0 = cam := by
  have h : ProcessMouseMovement cam 0 0 =
      { cam with
          yaw := cam.yaw + 0 * cam.mouseSensitivity
          pitch :=
            if cam.pitch + 0 * cam.mouseSensitivity > 89 then 89
            else if cam.pitch + 0 * cam.mouseSensitivity < -89 then -89
            else cam.pitch + 0 * cam.mouseSensitivity } := rfl
  rw [h]
  simp only [zero_mul, add_zero]
  rw [if_neg (by linarith), if_neg (by linarith)]

/-- C8: when the first-mouse flag is set, the callback only records the
event position as the reference point, clears the flag and leaves the
camera angles unchanged (the offsets forwarded are zero); on every
subsequent event at position x, y it forwards exactly the offsets
x - gLastX and gLastY - y (Y inverted) to the camera and updates gLastX,
gLastY to the event position, the yaw advancing by
mouseSensitivity * (x - gLastX). -/
theorem C8_mouse_first_and_subsequent (s : ViewState) (x y : ℚ) :
    (s.gFirstMouse = true → -89 ≤ s.camera.pitch → s.camera.pitch ≤ 89 →
      Mouse_Position_Callback s x y =
        { s with gLastX := x, gLastY := y, gFirstMouse := false }) ∧
    (s.gFirstMouse = false →
      Mouse_Position_Callback s x y =
        { s with
            gLastX := x
            gLastY := y
            camera :=
              ProcessMouseMovement s.camera (x - s.gLastX) (s.gLastY - y) }) ∧
    (s.gFirstMouse = false →
      (Mouse_Position_Callback s x y).camera.yaw =
        s.camera.yaw + (x - s.gLastX) * s.camera.mouseSensitivity) := by
  obtain ⟨lx, ly, fm, cam⟩ := s
  refine ⟨?_, ?_, ?_⟩
  · intro hf h1 h2
    cases fm with
    | false => exact Bool.noConfusion hf
    | true =>
      show ViewState.mk x y false (ProcessMouseMovement cam (x - x) (y - y)) =
        ViewState.mk x y false cam
      rw [sub_self, sub_self, pmm_zero_offsets cam h1 h2]
  · intro hf
    cases fm with
    | true => exact Bool.noConfusion hf
    | false => rfl
  · intro hf
    cases fm with
    | true => exact Bool.noConfusion hf
    | false => rfl

/-- C8 witness: a first event from the fresh state only records the
reference point, and a subsequent event from a recorded state advances the
yaw by sensitivity times the horizontal offset. -/
theorem C8_mouse_witness :
    Mouse_Position_Callback firstMouseViewState 250 340 =
      { firstMouseViewState with
          gLastX := 250
          gLastY := 340
          gFirstMouse := false } ∧
    (Mouse_Position_Callback secondMouseViewState 250 340).camera.yaw =
      secondMouseViewState.camera.yaw +
        (250 - secondMouseViewState.gLastX) *
          secondMouseViewState.camera.mouseSensitivity :=
  ⟨(C8_mouse_first_and_subsequent firstMouseViewState 250 340).1 rfl
      (by norm_num [firstMouseViewState]) (by norm_num [firstMouseViewState]),
   (C8_mouse_first_and_subsequent secondMouseViewState 250 340).2.2 rfl⟩

end OpenGLScene
